import Mathlib

/-! Verification of the pen dispatcher of rnote
(src/rnote-engine/src/pens/mod.rs).

The dispatcher `Pens` owns one sub-state per tool variant and routes the
four lifecycle operations (begin / motion / end / draw) to the variant
selected by the effective style.  The five tool implementations live in
other modules; here each tool is an abstract state type together with a
bundle of abstract operations (`ToolOps`), and the dispatcher is embedded
as explicit state passing: a call takes the dispatcher state, the opaque
call input (input samples, viewport, zoom, renderer handle, all of which
the dispatcher forwards verbatim) and the mutable sheet, and returns the
updated dispatcher state and sheet.  `draw` takes the paint target
(snapshot) and returns either the updated paint target or the tool's
error, mirroring the in-place mutation and `Result` of the source. -/

namespace Rnote

/-- The `PenStyle` enum of mod.rs lines 22-42: five fieldless variants,
`#[repr(u32)]`, so the declaration order fixes u32 discriminants 0..4. -/
inductive PenStyle where
  | BrushStyle
  | ShaperStyle
  | EraserStyle
  | SelectorStyle
  | ToolsStyle
  deriving DecidableEq, Repr, Fintype

/-- `impl Default for PenStyle` (mod.rs lines 44-48): `BrushStyle`. -/
def PenStyle.default : PenStyle := PenStyle.BrushStyle

/-- The members of the enumeration, in declaration order. -/
def PenStyle.members : List PenStyle :=
  [PenStyle.BrushStyle, PenStyle.ShaperStyle, PenStyle.EraserStyle,
    PenStyle.SelectorStyle, PenStyle.ToolsStyle]

/-- The u32 discriminant of a variant, as fixed by `#[repr(u32)]` and
registered by `glib::Enum`. -/
def PenStyle.toU32 : PenStyle → Nat
  | PenStyle.BrushStyle => 0
  | PenStyle.ShaperStyle => 1
  | PenStyle.EraserStyle => 2
  | PenStyle.SelectorStyle => 3
  | PenStyle.ToolsStyle => 4

/-- The order of the discriminants of `#[repr(u32)]`. -/
def PenStyle.le (a b : PenStyle) : Prop := a.toU32 ≤ b.toU32

instance (a b : PenStyle) : Decidable (PenStyle.le a b) :=
  inferInstanceAs (Decidable (a.toU32 ≤ b.toU32))

/-- The `PenBehaviour` trait surface of one tool variant, with the tool
sub-state `α` explicit.  `Input` stands for the arguments the dispatcher
forwards verbatim (data_entries, viewport, zoom, renderer); `Sheet` is the
mutable sheet; `draw` gets the paint target and either returns it updated
or fails with the tool's error. -/
structure ToolOps (α Input Sheet Snapshot Err : Type) where
  begin : α → Input → Sheet → α × Sheet
  motion : α → Input → Sheet → α × Sheet
  end_ : α → Input → Sheet → α × Sheet
  draw : α → Snapshot → Sheet → Except Err Snapshot

/-- The `Pens` struct of mod.rs lines 50-71: the selected style, the
optional transient overwrite, one sub-state per tool variant, and the
transient flag `pen_shown` (which carries `#[serde(skip)]`). -/
structure Pens (B S E R T : Type) where
  style : PenStyle
  style_overwrite : Option PenStyle
  brush : B
  shaper : S
  eraser : E
  selector : R
  tools : T
  pen_shown : Bool

/-- The behaviour bundles of the five owned tool variants. -/
structure PensOps (B S E R T Input Sheet Snapshot Err : Type) where
  brush : ToolOps B Input Sheet Snapshot Err
  shaper : ToolOps S Input Sheet Snapshot Err
  eraser : ToolOps E Input Sheet Snapshot Err
  selector : ToolOps R Input Sheet Snapshot Err
  tools : ToolOps T Input Sheet Snapshot Err

variable {B S E R T Input Sheet Snapshot Err : Type}

/-- `Pens::current_style` (mod.rs lines 208-210):
`self.style_overwrite.unwrap_or(self.style)`.  It takes `&self` in the
source, so it is a pure query; here it is a plain function of the state. -/
def Pens.current_style (p : Pens B S E R T) : PenStyle :=
  p.style_overwrite.getD p.style

/-- `PenBehaviour::begin` for `Pens` (mod.rs lines 74-106): first set
`pen_shown = true`, then match on `current_style()` and forward to the
selected variant's `begin`. -/
def Pens.begin (ops : PensOps B S E R T Input Sheet Snapshot Err)
    (p : Pens B S E R T) (input : Input) (sheet : Sheet) :
    Pens B S E R T × Sheet :=
  let q := { p with pen_shown := true }
  match Pens.current_style q with
  | PenStyle.BrushStyle =>
      let u := ops.brush.begin q.brush input sheet
      ({ q with brush := u.1 }, u.2)
  | PenStyle.ShaperStyle =>
      let u := ops.shaper.begin q.shaper input sheet
      ({ q with shaper := u.1 }, u.2)
  | PenStyle.EraserStyle =>
      let u := ops.eraser.begin q.eraser input sheet
      ({ q with eraser := u.1 }, u.2)
  | PenStyle.SelectorStyle =>
      let u := ops.selector.begin q.selector input sheet
      ({ q with selector := u.1 }, u.2)
  | PenStyle.ToolsStyle =>
      let u := ops.tools.begin q.tools input sheet
      ({ q with tools := u.1 }, u.2)

/-- `PenBehaviour::motion` for `Pens` (mod.rs lines 108-138): match on
`current_style()` and forward; no dispatcher-level state change. -/
def Pens.motion (ops : PensOps B S E R T Input Sheet Snapshot Err)
    (p : Pens B S E R T) (input : Input) (sheet : Sheet) :
    Pens B S E R T × Sheet :=
  match Pens.current_style p with
  | PenStyle.BrushStyle =>
      let u := ops.brush.motion p.brush input sheet
      ({ p with brush := u.1 }, u.2)
  | PenStyle.ShaperStyle =>
      let u := ops.shaper.motion p.shaper input sheet
      ({ p with shaper := u.1 }, u.2)
  | PenStyle.EraserStyle =>
      let u := ops.eraser.motion p.eraser input sheet
      ({ p with eraser := u.1 }, u.2)
  | PenStyle.SelectorStyle =>
      let u := ops.selector.motion p.selector input sheet
      ({ p with selector := u.1 }, u.2)
  | PenStyle.ToolsStyle =>
      let u := ops.tools.motion p.tools input sheet
      ({ p with tools := u.1 }, u.2)

/-- `PenBehaviour::end` for `Pens` (mod.rs lines 140-173): match on
`current_style()` and forward to the selected variant's `end`, then set
`pen_shown = false` and `style_overwrite = None`.  (`end` is reserved in
Lean, hence the trailing underscore.) -/
def Pens.end_ (ops : PensOps B S E R T Input Sheet Snapshot Err)
    (p : Pens B S E R T) (input : Input) (sheet : Sheet) :
    Pens B S E R T × Sheet :=
  let r :=
    match Pens.current_style p with
    | PenStyle.BrushStyle =>
        let u := ops.brush.end_ p.brush input sheet
        ({ p with brush := u.1 }, u.2)
    | PenStyle.ShaperStyle =>
        let u := ops.shaper.end_ p.shaper input sheet
        ({ p with shaper := u.1 }, u.2)
    | PenStyle.EraserStyle =>
        let u := ops.eraser.end_ p.eraser input sheet
        ({ p with eraser := u.1 }, u.2)
    | PenStyle.SelectorStyle =>
        let u := ops.selector.end_ p.selector input sheet
        ({ p with selector := u.1 }, u.2)
    | PenStyle.ToolsStyle =>
        let u := ops.tools.end_ p.tools input sheet
        ({ p with tools := u.1 }, u.2)
  ({ r.1 with pen_shown := false, style_overwrite := none }, r.2)

/-- `PenBehaviour::draw` for `Pens` (mod.rs lines 175-200): when
`pen_shown` forward to the selected variant's `draw` and return its result
unchanged; otherwise `Ok(())` with the paint target untouched. -/
def Pens.draw (ops : PensOps B S E R T Input Sheet Snapshot Err)
    (p : Pens B S E R T) (snapshot : Snapshot) (sheet : Sheet) :
    Except Err Snapshot :=
  if p.pen_shown then
    match Pens.current_style p with
    | PenStyle.BrushStyle => ops.brush.draw p.brush snapshot sheet
    | PenStyle.ShaperStyle => ops.shaper.draw p.shaper snapshot sheet
    | PenStyle.EraserStyle => ops.eraser.draw p.eraser snapshot sheet
    | PenStyle.SelectorStyle => ops.selector.draw p.selector snapshot sheet
    | PenStyle.ToolsStyle => ops.tools.draw p.tools snapshot sheet
  else
    Except.ok snapshot

/-- `Pens::pen_shown` (mod.rs lines 204-206): pure query of the flag. -/
def Pens.pen_shown_query (p : Pens B S E R T) : Bool := p.pen_shown

/-- The serialized form of `Pens` produced by the serde derive on
mod.rs lines 50-71: every field except `pen_shown` (which carries
`#[serde(skip)]`) is written out, the tool sub-states through their own
opaque serialization, here carried as themselves. -/
structure PensSer (B S E R T : Type) where
  style : PenStyle
  style_overwrite : Option PenStyle
  brush : B
  shaper : S
  eraser : E
  selector : R
  tools : T

/-- Serialization of `Pens`: the derived `Serialize` writes `style`,
`style_overwrite` and the five tool sub-states, and skips `pen_shown`. -/
def Pens.serialize (p : Pens B S E R T) : PensSer B S E R T :=
  { style := p.style, style_overwrite := p.style_overwrite,
    brush := p.brush, shaper := p.shaper, eraser := p.eraser,
    selector := p.selector, tools := p.tools }

/-- Deserialization of `Pens`: the derived `Deserialize` restores the
written fields; the skipped `pen_shown` takes its `Default` value,
`false`. -/
def PensSer.deserialize (s : PensSer B S E R T) : Pens B S E R T :=
  { style := s.style, style_overwrite := s.style_overwrite,
    brush := s.brush, shaper := s.shaper, eraser := s.eraser,
    selector := s.selector, tools := s.tools, pen_shown := false }

/-- `Pens.begin ops p input sheet` forwards the call to exactly the named
variant: that variant's sub-state is replaced by the result of its own
`begin` on the forwarded arguments, every other field (but the
unconditionally set `pen_shown`) is untouched, and the sheet is the one
the variant returned. -/
def BeginForwardsTo (ops : PensOps B S E R T Input Sheet Snapshot Err)
    (p : Pens B S E R T) (input : Input) (sheet : Sheet) : PenStyle → Prop
  | PenStyle.BrushStyle =>
      Pens.begin ops p input sheet =
        ({ p with pen_shown := true, brush := (ops.brush.begin p.brush input sheet).1 },
          (ops.brush.begin p.brush input sheet).2)
  | PenStyle.ShaperStyle =>
      Pens.begin ops p input sheet =
        ({ p with pen_shown := true, shaper := (ops.shaper.begin p.shaper input sheet).1 },
          (ops.shaper.begin p.shaper input sheet).2)
  | PenStyle.EraserStyle =>
      Pens.begin ops p input sheet =
        ({ p with pen_shown := true, eraser := (ops.eraser.begin p.eraser input sheet).1 },
          (ops.eraser.begin p.eraser input sheet).2)
  | PenStyle.SelectorStyle =>
      Pens.begin ops p input sheet =
        ({ p with pen_shown := true, selector := (ops.selector.begin p.selector input sheet).1 },
          (ops.selector.begin p.selector input sheet).2)
  | PenStyle.ToolsStyle =>
      Pens.begin ops p input sheet =
        ({ p with pen_shown := true, tools := (ops.tools.begin p.tools input sheet).1 },
          (ops.tools.begin p.tools input sheet).2)

/-- `Pens.motion ops p input sheet` forwards the call to exactly the named
variant: that variant's sub-state is replaced by the result of its own
`motion`, every other field is untouched, and the sheet is the one the
variant returned. -/
def MotionForwardsTo (ops : PensOps B S E R T Input Sheet Snapshot Err)
    (p : Pens B S E R T) (input : Input) (sheet : Sheet) : PenStyle → Prop
  | PenStyle.BrushStyle =>
      Pens.motion ops p input sheet =
        ({ p with brush := (ops.brush.motion p.brush input sheet).1 },
          (ops.brush.motion p.brush input sheet).2)
  | PenStyle.ShaperStyle =>
      Pens.motion ops p input sheet =
        ({ p with shaper := (ops.shaper.motion p.shaper input sheet).1 },
          (ops.shaper.motion p.shaper input sheet).2)
  | PenStyle.EraserStyle =>
      Pens.motion ops p input sheet =
        ({ p with eraser := (ops.eraser.motion p.eraser input sheet).1 },
          (ops.eraser.motion p.eraser input sheet).2)
  | PenStyle.SelectorStyle =>
      Pens.motion ops p input sheet =
        ({ p with selector := (ops.selector.motion p.selector input sheet).1 },
          (ops.selector.motion p.selector input sheet).2)
  | PenStyle.ToolsStyle =>
      Pens.motion ops p input sheet =
        ({ p with tools := (ops.tools.motion p.tools input sheet).1 },
          (ops.tools.motion p.tools input sheet).2)

/-- `Pens.end_ ops p input sheet` forwards the call to exactly the named
variant before the reset: that variant's sub-state is replaced by the
result of its own `end`, every other tool field is untouched, and on top
of the forward `pen_shown` is cleared and `style_overwrite` dropped. -/
def EndForwardsTo (ops : PensOps B S E R T Input Sheet Snapshot Err)
    (p : Pens B S E R T) (input : Input) (sheet : Sheet) : PenStyle → Prop
  | PenStyle.BrushStyle =>
      Pens.end_ ops p input sheet =
        ({ p with brush := (ops.brush.end_ p.brush input sheet).1, pen_shown := false, style_overwrite := none },
          (ops.brush.end_ p.brush input sheet).2)
  | PenStyle.ShaperStyle =>
      Pens.end_ ops p input sheet =
        ({ p with shaper := (ops.shaper.end_ p.shaper input sheet).1, pen_shown := false, style_overwrite := none },
          (ops.shaper.end_ p.shaper input sheet).2)
  | PenStyle.EraserStyle =>
      Pens.end_ ops p input sheet =
        ({ p with eraser := (ops.eraser.end_ p.eraser input sheet).1, pen_shown := false, style_overwrite := none },
          (ops.eraser.end_ p.eraser input sheet).2)
  | PenStyle.SelectorStyle =>
      Pens.end_ ops p input sheet =
        ({ p with selector := (ops.selector.end_ p.selector input sheet).1, pen_shown := false, style_overwrite := none },
          (ops.selector.end_ p.selector input sheet).2)
  | PenStyle.ToolsStyle =>
      Pens.end_ ops p input sheet =
        ({ p with tools := (ops.tools.end_ p.tools input sheet).1, pen_shown := false, style_overwrite := none },
          (ops.tools.end_ p.tools input sheet).2)

/-- `Pens.draw ops p snapshot sheet` is exactly the named variant's own
`draw` on the forwarded arguments, success and error alike. -/
def DrawForwardsTo (ops : PensOps B S E R T Input Sheet Snapshot Err)
    (p : Pens B S E R T) (snapshot : Snapshot) (sheet : Sheet) :
    PenStyle → Prop
  | PenStyle.BrushStyle =>
      Pens.draw ops p snapshot sheet = ops.brush.draw p.brush snapshot sheet
  | PenStyle.ShaperStyle =>
      Pens.draw ops p snapshot sheet = ops.shaper.draw p.shaper snapshot sheet
  | PenStyle.EraserStyle =>
      Pens.draw ops p snapshot sheet = ops.eraser.draw p.eraser snapshot sheet
  | PenStyle.SelectorStyle =>
      Pens.draw ops p snapshot sheet =
        ops.selector.draw p.selector snapshot sheet
  | PenStyle.ToolsStyle =>
      Pens.draw ops p snapshot sheet = ops.tools.draw p.tools snapshot sheet

/-- A concrete tool over `Nat` sub-states that counts its invocations and
bumps the sheet on `motion` and the snapshot on `draw`, used to evaluate
the dispatch theorems on closed inputs. -/
def countTool : ToolOps Nat Nat Nat Nat Nat :=
  { begin := fun a _ sheet => (a + 1, sheet),
    motion := fun a _ sheet => (a + 1, sheet + 1),
    end_ := fun a _ sheet => (a + 1, sheet),
    draw := fun _ snapshot _ => Except.ok (snapshot + 1) }

/-- A concrete tool whose `draw` always fails, to evaluate error
propagation on a closed input. -/
def failTool : ToolOps Nat Nat Nat Nat Nat :=
  { countTool with draw := fun _ _ _ => Except.error 7 }

/-- Concrete behaviour bundles: every variant counts, the eraser's `draw`
fails. -/
def cOps : PensOps Nat Nat Nat Nat Nat Nat Nat Nat Nat :=
  { brush := countTool, shaper := countTool, eraser := failTool,
    selector := countTool, tools := countTool }

/-- A concrete dispatcher state mid-gesture: style Brush, no overwrite,
`pen_shown` set. -/
def wPens : Pens Nat Nat Nat Nat Nat :=
  { style := PenStyle.BrushStyle, style_overwrite := none,
    brush := 0, shaper := 0, eraser := 0, selector := 0, tools := 0,
    pen_shown := true }

/-- A concrete dispatcher state at rest (`pen_shown` clear). -/
def hiddenPens : Pens Nat Nat Nat Nat Nat := { wPens with pen_shown := false }

/-- A concrete mid-gesture state with a transient overwrite to Eraser. -/
def overwrittenPens : Pens Nat Nat Nat Nat Nat :=
  { wPens with style_overwrite := some PenStyle.EraserStyle }

/-- A concrete state for the serialization round-trip: style Selector,
overwrite Eraser, `pen_shown` set. -/
def pensC7 : Pens Unit Unit Unit Unit Unit :=
  { style := PenStyle.SelectorStyle,
    style_overwrite := some PenStyle.EraserStyle,
    brush := (), shaper := (), eraser := (), selector := (), tools := (),
    pen_shown := true }

/-- C1: for every dispatcher state, `current_style()` returns the value of
`style_overwrite` when it is `Some` and `style` otherwise — for every
`PenStyle` in either field.  In the source `current_style` takes `&self`,
and here it is a plain function of the state, so it modifies nothing. -/
theorem current_style_query (p : Pens B S E R T) (s : PenStyle) :
    (p.style_overwrite = none → Pens.current_style p = p.style) ∧
      (p.style_overwrite = some s → Pens.current_style p = s) := by
  constructor <;> intro h <;> simp [Pens.current_style, h]

/-- C1 witness: on a concrete state whose overwrite is Eraser,
`current_style` returns Eraser. -/
theorem current_style_query_witness :
    Pens.current_style overwrittenPens = PenStyle.EraserStyle :=
  (current_style_query overwrittenPens PenStyle.EraserStyle).2 rfl

/-- C2: the effective style is re-resolved on every dispatcher call: for
any state mid-gesture, setting `style_overwrite` to `some s` makes the
next `motion` and the next `end` forward to variant `s`, and clearing the
overwrite while switching `style` to `s2` makes them forward to variant
`s2` — whatever variant received `begin`. -/
theorem midgesture_reresolution (ops : PensOps B S E R T Input Sheet Snapshot Err)
    (p : Pens B S E R T) (input : Input) (sheet : Sheet) (s : PenStyle)
    (_hshown : p.pen_shown = true) :
    MotionForwardsTo ops { p with style_overwrite := some s } input sheet s ∧
      EndForwardsTo ops { p with style_overwrite := some s } input sheet s ∧
      (∀ s2 : PenStyle,
        MotionForwardsTo ops { p with style := s2, style_overwrite := none } input sheet s2) ∧
      (∀ s2 : PenStyle,
        EndForwardsTo ops { p with style := s2, style_overwrite := none } input sheet s2) := by
  refine ⟨?_, ?_, fun s2 => ?_, fun s2 => ?_⟩
  · cases s <;> rfl
  · cases s <;> rfl
  · cases s2 <;> rfl
  · cases s2 <;> rfl

/-- C2 witness: a concrete Brush-style mid-gesture state whose overwrite
is switched to Eraser forwards the next `motion` and `end` to the eraser
variant. -/
theorem midgesture_reresolution_witness :
    MotionForwardsTo cOps { wPens with style_overwrite := some PenStyle.EraserStyle } 0 0
        PenStyle.EraserStyle ∧
      EndForwardsTo cOps { wPens with style_overwrite := some PenStyle.EraserStyle } 0 0
        PenStyle.EraserStyle ∧
      (∀ s2 : PenStyle,
        MotionForwardsTo cOps { wPens with style := s2, style_overwrite := none } 0 0 s2) ∧
      (∀ s2 : PenStyle,
        EndForwardsTo cOps { wPens with style := s2, style_overwrite := none } 0 0 s2) :=
  midgesture_reresolution cOps wPens 0 0 PenStyle.EraserStyle rfl

/-- C3: after `end` the dispatcher state has `pen_shown = false` and
`style_overwrite = none`, whatever their values before the call, and the
forward goes to the variant selected by the effective style of the
pre-call state — i.e. the dispatch happens before the reset. -/
theorem end_resets_state (ops : PensOps B S E R T Input Sheet Snapshot Err)
    (p : Pens B S E R T) (input : Input) (sheet : Sheet) :
    (Pens.end_ ops p input sheet).1.pen_shown = false ∧
      (Pens.end_ ops p input sheet).1.style_overwrite = none ∧
      EndForwardsTo ops p input sheet (Pens.current_style p) := by
  rcases p with ⟨st, ov, br, sh, er, se, tl, ps⟩
  rcases ov with _ | s
  · cases st <;> exact ⟨rfl, rfl, rfl⟩
  · cases s <;> exact ⟨rfl, rfl, rfl⟩

/-- C4: `begin` sets `pen_shown = true` unconditionally — for every
effective style and every behaviour of the tool variants — and forwards
the call to exactly the one variant selected by the effective style. -/
theorem begin_shows_pen (ops : PensOps B S E R T Input Sheet Snapshot Err)
    (p : Pens B S E R T) (input : Input) (sheet : Sheet) :
    (Pens.begin ops p input sheet).1.pen_shown = true ∧
      BeginForwardsTo ops p input sheet (Pens.current_style p) := by
  rcases p with ⟨st, ov, br, sh, er, se, tl, ps⟩
  rcases ov with _ | s
  · cases st <;> exact ⟨rfl, rfl⟩
  · cases s <;> exact ⟨rfl, rfl⟩

/-- C5: when `pen_shown` is false, `draw` returns success immediately with
the paint target untouched — the result is `ok` of the unmodified
snapshot for every behaviour of the tool variants, so no variant's `draw`
is consulted. -/
theorem draw_hidden_ok (ops : PensOps B S E R T Input Sheet Snapshot Err)
    (p : Pens B S E R T) (snapshot : Snapshot) (sheet : Sheet)
    (h : p.pen_shown = false) :
    Pens.draw ops p snapshot sheet = Except.ok snapshot := by
  simp [Pens.draw, h]

/-- C5 witness: on a concrete at-rest state, `draw` returns the snapshot
unchanged even though the bundled tools would bump or fail it. -/
theorem draw_hidden_ok_witness :
    Pens.draw cOps hiddenPens 5 0 = Except.ok 5 :=
  draw_hidden_ok cOps hiddenPens 5 0 rfl

/-- C6: when `pen_shown` is true, `draw` is exactly the `draw` of the
variant selected by `current_style()` at call time — the same result,
success value and error value alike, with nothing layered on top. -/
theorem draw_forwards (ops : PensOps B S E R T Input Sheet Snapshot Err)
    (p : Pens B S E R T) (snapshot : Snapshot) (sheet : Sheet)
    (h : p.pen_shown = true) :
    DrawForwardsTo ops p snapshot sheet (Pens.current_style p) := by
  rcases p with ⟨st, ov, br, sh, er, se, tl, ps⟩
  cases ps
  · exact Bool.noConfusion h
  · rcases ov with _ | s
    · cases st <;> rfl
    · cases s <;> rfl

/-- C6 witness: on a concrete mid-gesture state overwritten to Eraser,
whose `draw` fails with error 7, the dispatcher forwards to the eraser
variant and returns that error unchanged. -/
theorem draw_forwards_witness :
    DrawForwardsTo cOps overwrittenPens 5 0 (Pens.current_style overwrittenPens) ∧
      Pens.draw cOps overwrittenPens 5 0 = Except.error 7 :=
  ⟨draw_forwards cOps overwrittenPens 5 0 rfl, rfl⟩

/-- C7 counterexample: serialization does not exclude `style_overwrite`
(only `pen_shown` carries `#[serde(skip)]`): round-tripping a concrete
state whose overwrite is Eraser restores `some Eraser`, not `none` as the
claim states. -/
theorem serialize_overwrite_cex :
    (PensSer.deserialize (Pens.serialize pensC7)).style_overwrite =
        some PenStyle.EraserStyle ∧
      (PensSer.deserialize (Pens.serialize pensC7)).style_overwrite ≠ none := by
  decide

/-- C7 amended: serializing and deserializing a dispatcher state restores
`style`, `style_overwrite` and the five tool sub-states, and resets only
the skipped `pen_shown` to its default `false`, whatever its value before
serialization. -/
theorem serialize_roundtrip (p : Pens B S E R T) :
    PensSer.deserialize (Pens.serialize p) = { p with pen_shown := false } := rfl

/-- C8: `motion` changes no dispatcher-level state — `style`,
`style_overwrite` and `pen_shown` keep their values — and only forwards
the call to the one variant selected by the effective style. -/
theorem motion_frame (ops : PensOps B S E R T Input Sheet Snapshot Err)
    (p : Pens B S E R T) (input : Input) (sheet : Sheet) :
    (Pens.motion ops p input sheet).1.style = p.style ∧
      (Pens.motion ops p input sheet).1.style_overwrite = p.style_overwrite ∧
      (Pens.motion ops p input sheet).1.pen_shown = p.pen_shown ∧
      MotionForwardsTo ops p input sheet (Pens.current_style p) := by
  rcases p with ⟨st, ov, br, sh, er, se, tl, ps⟩
  rcases ov with _ | s
  · cases st <;> exact ⟨rfl, rfl, rfl, rfl⟩
  · cases s <;> exact ⟨rfl, rfl, rfl, rfl⟩

/-- C9: `PenStyle` is a closed enumeration of exactly five members
(Brush, Shaper, Eraser, Selector, Tools), the order of its `#[repr(u32)]`
discriminants is a total order (reflexive, antisymmetric, transitive and
total), and its default is Brush. -/
theorem penstyle_enum :
    PenStyle.members.length = 5 ∧
      PenStyle.members.Nodup ∧
      (∀ s : PenStyle, s ∈ PenStyle.members) ∧
      (∀ a : PenStyle, PenStyle.le a a) ∧
      (∀ a b : PenStyle, PenStyle.le a b → PenStyle.le b a → a = b) ∧
      (∀ a b c : PenStyle, PenStyle.le a b → PenStyle.le b c → PenStyle.le a c) ∧
      (∀ a b : PenStyle, PenStyle.le a b ∨ PenStyle.le b a) ∧
      PenStyle.default = PenStyle.BrushStyle := by
  refine ⟨rfl, ?_, ?_, ?_, ?_, ?_, ?_, rfl⟩ <;> decide

/-- C10: `begin` leaves `style` and `style_overwrite` (and hence the
effective style) unchanged, so a transient overwrite set before `begin`
stays in force for the gesture's `motion` and `end` calls until `end`
clears it. -/
theorem begin_preserves_style (ops : PensOps B S E R T Input Sheet Snapshot Err)
    (p : Pens B S E R T) (input : Input) (sheet : Sheet) :
    (Pens.begin ops p input sheet).1.style = p.style ∧
      (Pens.begin ops p input sheet).1.style_overwrite = p.style_overwrite ∧
      Pens.current_style (Pens.begin ops p input sheet).1 = Pens.current_style p := by
  rcases p with ⟨st, ov, br, sh, er, se, tl, ps⟩
  rcases ov with _ | s
  · cases st <;> exact ⟨rfl, rfl, rfl⟩
  · cases s <;> exact ⟨rfl, rfl, rfl⟩

end Rnote
